import Mathlib

/-!
Verification of the voter-card extraction pipeline (src/python_script.py)
against its natural-language specification.

Strings manipulated character-wise (the response sanitizer) are modelled as
`List Char`; everywhere else Lean's `String` is used.  Python's `str.strip()`
is `pyStrip`; Python's whitespace set is `isPySpace`.
-/

/-- Python `str.isspace` characters stripped by `str.strip()` (ASCII range). -/
def isPySpace (c : Char) : Bool :=
  c == ' ' || c == '\t' || c == '\n' || c == '\r' || c == '\x0b' || c == '\x0c'

/-- Left part of Python `str.strip()`. -/
def lstrip (s : List Char) : List Char := s.dropWhile isPySpace

/-- Right part of Python `str.strip()`. -/
def rstrip (s : List Char) : List Char := (s.reverse.dropWhile isPySpace).reverse

/-- Python `str.strip()`. -/
def pyStrip (s : List Char) : List Char := rstrip (lstrip s)

/-- The characters of the literal three-backtick fence used at lines 32 and 34. -/
def fence3 : List Char := ['`', '`', '`']

/-- The characters of the literal tagged fence at line 30 (7 characters). -/
def fenceJson : List Char := ['`', '`', '`', 'j', 's', 'o', 'n']

/-- `clean_json_response`, src/python_script.py lines 27-36.
`text[7:]` is `List.drop 7`, `text[3:]` is `List.drop 3`,
`text[:-3]` is `List.take (length - 3)`. -/
def clean_json_response (text : List Char) : List Char :=
  let t1 := pyStrip text
  let t2 := if List.isPrefixOf fenceJson t1 then t1.drop 7 else t1
  let t3 := if List.isPrefixOf fence3 t2 then t2.drop 3 else t2
  let t4 := if List.isSuffixOf fence3 t3 then t3.take (t3.length - 3) else t3
  pyStrip t4

/-- Python `dict.get(k)` on a flat JSON object modelled as an association list
(first binding wins; `json.loads` keeps one binding per key). -/
def lookupKey (d : List (String × String)) (k : String) : Option String :=
  (d.find? (fun p => p.1 == k)).map Prod.snd

/-- Python `dict.get(k, "")`, the lookup used at lines 52-62 and 201-263. -/
def getStr (d : List (String × String)) (k : String) : String :=
  (lookupKey d k).getD ""

/-- The fixed 11-field record the pipeline operates on (spec section 3); every
field is a string, present on every instance. -/
structure Record where
  election_number : String
  name : String
  relation_name : String
  gender : String
  date_of_birth : String
  address : String
  city : String
  state : String
  pincode : String
  electoral_registration_officer : String
  issue_date : String
deriving DecidableEq

/-- The canonical field names in report order. -/
def canonicalFields : List String :=
  ["election_number", "name", "relation_name", "gender", "date_of_birth",
   "address", "city", "state", "pincode", "electoral_registration_officer",
   "issue_date"]

/-- Reading every canonical field out of a parsed payload with
`json_data.get(field, "")`, as done at lines 52-62 (and again in the review
form); non-canonical keys are never consulted. -/
def parseRecord (j : List (String × String)) : Record :=
  ⟨getStr j "election_number", getStr j "name", getStr j "relation_name",
   getStr j "gender", getStr j "date_of_birth", getStr j "address",
   getStr j "city", getStr j "state", getStr j "pincode",
   getStr j "electoral_registration_officer", getStr j "issue_date"⟩

/-- The `final_data` dictionary built at lines 272-284: all 11 canonical keys
in canonical order. -/
def recordPayload (r : Record) : List (String × String) :=
  [("election_number", r.election_number), ("name", r.name),
   ("relation_name", r.relation_name), ("gender", r.gender),
   ("date_of_birth", r.date_of_birth), ("address", r.address),
   ("city", r.city), ("state", r.state), ("pincode", r.pincode),
   ("electoral_registration_officer", r.electoral_registration_officer),
   ("issue_date", r.issue_date)]

/-- One `c.drawString(x, y_position, text)` call of `create_pdf`. -/
structure Draw where
  x : Int
  y : Int
  text : String
deriving DecidableEq

/-- The literal (field-key, display-label) table behind the `fields` list of
`create_pdf`, lines 51-63. -/
def fieldLabelPairs : List (String × String) :=
  [("election_number", "Election Number"), ("name", "Voter Name"),
   ("relation_name", "Relation Name"), ("gender", "Gender"),
   ("date_of_birth", "Date of Birth"), ("address", "Address"),
   ("city", "City"), ("state", "State"), ("pincode", "Pincode"),
   ("electoral_registration_officer", "ERO"), ("issue_date", "Issue Date")]

/-- The `fields` list of `create_pdf` lines 51-63: each entry pairs a display
label with `json_data.get(key, "")`. -/
def pdfFields (j : List (String × String)) : List (String × String) :=
  fieldLabelPairs.map (fun p => (p.2, getStr j p.1))

/-- The two `drawString` calls of one loop iteration, lines 66-70: the label
with a trailing colon at x=50 and `str(value)[:80]` at x=150, both at the
current cursor height. -/
def drawField (label value : String) (y : Int) : List Draw :=
  [⟨50, y, label ++ ":"⟩, ⟨150, y, value.take 80⟩]

/-- ReportLab canvas state: finished pages, draws on the current page, and the
vertical cursor `y_position`. -/
structure PdfState where
  pages : List (List Draw)
  current : List Draw
  y : Int
deriving DecidableEq

/-- One iteration of the field loop, lines 65-75: draw the line, advance the
cursor by 22, and if the cursor crossed the bottom margin (60) call
`showPage()` and reset it to `height - 60 = 732`. -/
def pdfStep (s : PdfState) (lv : String × String) : PdfState :=
  let cur := s.current ++ drawField lv.1 lv.2 s.y
  let y2 := s.y - 22
  if y2 < 60 then ⟨s.pages ++ [cur], [], 732⟩ else ⟨s.pages, cur, y2⟩

/-- `c.save()`, line 77: emits the current page only if it has content. -/
def canvasSave (s : PdfState) : List (List Draw) :=
  if s.current = [] then s.pages else s.pages ++ [s.current]

/-- Canvas state right before the field loop: title at `height-60 = 732`,
subtitle at `height-85 = 707`, cursor at `height-110 = 682` (letter page
height is 792). -/
def pdfStart : PdfState :=
  ⟨[], [⟨50, 732, "🆔 Voter ID Extraction Report"⟩,
        ⟨50, 707, "Verified Details from EPIC Card"⟩], 682⟩

/-- `create_pdf`, lines 38-79, as the list of pages of drawString calls. -/
def create_pdf (j : List (String × String)) : List (List Draw) :=
  canvasSave ((pdfFields j).foldl pdfStep pdfStart)

/-- The payload of the spec section-8 scenario: the backend reply parses to a
flat object with only `name` and `gender`. -/
def scenarioPayload : List (String × String) :=
  [("name", "ASHA RAO"), ("gender", "Female")]

/-- The Record the section-8 scenario parses to (9 fields default to ""). -/
def scenarioRecord : Record := parseRecord scenarioPayload

/-- Modelled from the spec (section 4.6): split a field name at underscores. -/
def splitUnderscore : List Char → List (List Char)
  | [] => [[]]
  | c :: cs =>
    match splitUnderscore cs with
    | [] => [[]]
    | w :: ws => if c = '_' then [] :: w :: ws else (c :: w) :: ws

/-- Modelled from the spec (section 4.6): capitalize one word. -/
def capWord : List Char → List Char
  | [] => []
  | c :: cs => c.toUpper :: cs

/-- Modelled from the spec (section 4.6): join words with single spaces. -/
def joinWords : List (List Char) → List Char
  | [] => []
  | [w] => w
  | w :: ws => w ++ ' ' :: joinWords ws

/-- Modelled from the spec (section 4.6): the display label a field name
should carry, "the field name with underscores replaced by spaces and each
word capitalized".  Compared against the literal labels the code uses. -/
def specLabel (f : List Char) : List Char :=
  joinWords ((splitUnderscore f).map capWord)

/-- The uploaded credential file, after `json.load`: either loading/reading it
raises (malformed JSON or a non-object), or it is a flat object. -/
inductive CredFile where
  | invalid
  | dict (entries : List (String × String))
deriving DecidableEq

/-- The inference backend as `process_images` observes it: whether
`genai.Client(...)` construction succeeds, and the `generate_content` result
(`none` models a raised exception, `some t` a reply with text `t`). -/
structure Backend where
  clientOk : Bool
  genReply : Option String
deriving DecidableEq

/-- Process-global state touched by `process_images`: the
GOOGLE_APPLICATION_CREDENTIALS environment variable, whether the temporary
credential file currently exists on disk, and a log of the project ids the
backend has been invoked with (to state never-invoked facts). -/
structure PIState where
  envCred : Option String
  tmpExists : Bool
  genCalls : List String
deriving DecidableEq

/-- The path of the `tempfile.NamedTemporaryFile(delete=False)` of line 85. -/
def tmpCredPath : String := "tmp_cred.json"

/-- Python `a or b` on an optional string: `None` and `""` are falsy. -/
def pyOrStr (a : Option String) (b : String) : String :=
  match a with
  | some v => if v = "" then b else v
  | none => b

/-- Line 94: `creds.get("project_id") or creds.get("quota_project_id",
"gen-lang-client-0155506887")`. -/
def derive_project_id (entries : List (String × String)) : String :=
  pyOrStr (lookupKey entries "project_id")
    ((lookupKey entries "quota_project_id").getD "gen-lang-client-0155506887")

/-- `process_images`, lines 81-125.  `tempfile.NamedTemporaryFile(delete=False)`
creates the temporary file on disk; `writeOk` says whether the
`tmp_cred.write(...)` call at line 86 succeeds.  When it raises, the `with`
block closes the already-created file without deleting it, `tmp_cred_path`
is never assigned, so the `'tmp_cred_path' in locals()` guard of line 122 is
false, the unlink is skipped and the file leaks; the env-var assignment of
line 89 never runs.  When the write succeeds the remaining exception paths
are reading/parsing the credentials (lines 92-94, `CredFile.invalid`), client
construction (line 97, `clientOk = false`) and `generate_content` (line 115,
`genReply = none`); on those the `except` block unlinks the file (the path is
assigned and the file exists) and returns `None`.  `st.error` output is not
modelled. -/
def process_images (cred : CredFile) (writeOk : Bool) (b : Backend)
    (s0 : PIState) : Option String × PIState :=
  if writeOk then
    let s1 : PIState := ⟨some tmpCredPath, true, s0.genCalls⟩
    match cred with
    | CredFile.invalid => (none, ⟨s1.envCred, false, s1.genCalls⟩)
    | CredFile.dict entries =>
      let pid := derive_project_id entries
      if b.clientOk then
        let s2 : PIState := ⟨s1.envCred, s1.tmpExists, s1.genCalls ++ [pid]⟩
        match b.genReply with
        | some t => (some t, ⟨s2.envCred, false, s2.genCalls⟩)
        | none => (none, ⟨s2.envCred, false, s2.genCalls⟩)
      else
        (none, ⟨s1.envCred, false, s1.genCalls⟩)
  else
    (none, ⟨s0.envCred, true, s0.genCalls⟩)

/-- An uploaded image; only its presence matters to the guards. -/
structure ImageFile where
  content : List Nat
  mime : String
deriving DecidableEq

/-- Outcome of pressing START EXTRACTION, lines 173-180. -/
inductive UIResult where
  | warnCred
  | warnImages
  | extracted (raw : Option String)
deriving DecidableEq

/-- A run of the button handler: its outcome, the resulting global state, and
whether `process_images` (and hence the inference client) was invoked. -/
structure UIRun where
  outcome : UIResult
  state : PIState
  invoked : Bool
deriving DecidableEq

/-- The START EXTRACTION handler, lines 173-180: warn when no credential file
is present, warn when zero or more than two images are uploaded, and only
otherwise call `process_images`. -/
def start_extraction (cred : Option CredFile) (images : List ImageFile)
    (writeOk : Bool) (b : Backend) (s0 : PIState) : UIRun :=
  match cred with
  | none => ⟨UIResult.warnCred, s0, false⟩
  | some c =>
    if images.length = 0 ∨ 2 < images.length then ⟨UIResult.warnImages, s0, false⟩
    else
      let r := process_images c writeOk b s0
      ⟨UIResult.extracted r.1, r.2, true⟩

/-- The selectbox options of line 221. -/
def gender_opts : List String := ["Male", "Female", "Other"]

/-- Python `list.index(v)`: first index of `v`, `none` models the raised
`ValueError` when `v` is absent. -/
def pyListIndex (l : List String) (v : String) : Option Nat :=
  match l with
  | [] => none
  | a :: t => if a == v then some 0 else (pyListIndex t v).map (fun n => n + 1)

/-- Outcome of the review stage for one parsed payload. -/
inductive ReviewOutcome where
  | displayed (r : Record) (selectedGender : String)
  | parseError
deriving DecidableEq

/-- The review stage, lines 187-309, reduced to its only fallible step: the
form reads every field with `json_data.get(field, "")` (that is
`parseRecord`), except the gender selectbox of lines 221-226 whose index is
`gender_opts.index(json_data.get("gender", "Male"))`.  If `list.index`
raises, the blanket `except:` of lines 311-313 reports "JSON Parse Error" and
the record is not displayed; otherwise the form is displayed with the
selected gender option. -/
def review_stage (j : List (String × String)) : ReviewOutcome :=
  match pyListIndex gender_opts ((lookupKey j "gender").getD "Male") with
  | some i => ReviewOutcome.displayed (parseRecord j) (gender_opts.getD i "")
  | none => ReviewOutcome.parseError

theorem dropWhile_idem (p : Char → Bool) (l : List Char) :
    (l.dropWhile p).dropWhile p = l.dropWhile p := by
  induction l with
  | nil => rfl
  | cons a t ih =>
    by_cases h : p a = true
    · simp [List.dropWhile_cons, h, ih]
    · simp at h
      simp [List.dropWhile_cons, h]

theorem dropWhile_append_last (p : Char → Bool) (a : Char) (ha : p a = false) :
    ∀ xs : List Char, (xs ++ [a]).dropWhile p = xs.dropWhile p ++ [a] := by
  intro xs
  induction xs with
  | nil => simp [List.dropWhile_cons, ha]
  | cons x t ih =>
    by_cases h : p x = true
    · simp [List.dropWhile_cons, h, ih]
    · simp at h
      simp [List.dropWhile_cons, h]

theorem dropWhile_shape (p : Char → Bool) (l : List Char) :
    l.dropWhile p = [] ∨ ∃ a t, l.dropWhile p = a :: t ∧ p a = false := by
  induction l with
  | nil => exact Or.inl rfl
  | cons x t ih =>
    by_cases h : p x = true
    · simpa [List.dropWhile_cons, h] using ih
    · simp at h
      exact Or.inr ⟨x, t, by simp [List.dropWhile_cons, h], h⟩

theorem rstrip_idem (l : List Char) : rstrip (rstrip l) = rstrip l := by
  simp [rstrip, dropWhile_idem]

theorem rstrip_cons_of_false (a : Char) (ha : isPySpace a = false) (t : List Char) :
    rstrip (a :: t) = a :: rstrip t := by
  simp [rstrip, List.reverse_cons, dropWhile_append_last isPySpace a ha]

theorem lstrip_pyStrip (s : List Char) : lstrip (pyStrip s) = pyStrip s := by
  rcases dropWhile_shape isPySpace s with h | ⟨a, t, h, ha⟩
  · simp [pyStrip, lstrip, rstrip, h]
  · have hs : pyStrip s = a :: rstrip t := by
      simp [pyStrip, lstrip, h, rstrip_cons_of_false a ha]
    rw [hs]
    simp [lstrip, List.dropWhile_cons, ha]

theorem pyStrip_idem (s : List Char) : pyStrip (pyStrip s) = pyStrip s := by
  have h1 : pyStrip (pyStrip s) = rstrip (pyStrip s) := by
    rw [pyStrip, lstrip_pyStrip]
  rw [h1, pyStrip, rstrip_idem]

theorem isPrefixOf_append_left (u v t : List Char)
    (h : List.isPrefixOf (u ++ v) t = true) : List.isPrefixOf u t = true := by
  induction u generalizing t with
  | nil => cases t <;> rfl
  | cons a u' ih =>
    cases t with
    | nil => simp [List.isPrefixOf] at h
    | cons b t' =>
      simp only [List.cons_append, List.isPrefixOf, Bool.and_eq_true] at h ⊢
      exact ⟨h.1, ih t' h.2⟩

theorem fenceJson_implies_fence3 (t : List Char)
    (h : List.isPrefixOf fenceJson t = true) : List.isPrefixOf fence3 t = true := by
  have : fenceJson = fence3 ++ ['j', 's', 'o', 'n'] := rfl
  rw [this] at h
  exact isPrefixOf_append_left _ _ _ h

theorem clean_of_no_fence (x : List Char)
    (h1 : List.isPrefixOf fence3 (pyStrip x) = false)
    (h2 : List.isSuffixOf fence3 (pyStrip x) = false) :
    clean_json_response x = pyStrip x := by
  have hj : List.isPrefixOf fenceJson (pyStrip x) = false := by
    cases hc : List.isPrefixOf fenceJson (pyStrip x)
    · rfl
    · have := fenceJson_implies_fence3 _ hc
      rw [h1] at this
      exact absurd this (by simp)
  simp only [clean_json_response, hj, h1, h2, Bool.false_eq_true, if_false]
  exact pyStrip_idem x

theorem pyStrip_clean (x : List Char) :
    pyStrip (clean_json_response x) = clean_json_response x := by
  simp only [clean_json_response]
  exact pyStrip_idem _

/-- C1: the sanitizer is a total Lean function; after trimming it is the
identity on strings that neither begin nor end with a fence marker; and it is
idempotent on every input whose sanitized output neither begins nor ends with
a fence marker.  (Unconditional idempotence is refuted by
`C1_sanitizer_not_idempotent`.) -/
theorem C1_sanitizer_amended (x : List Char) :
    (List.isPrefixOf fence3 (pyStrip x) = false →
     List.isSuffixOf fence3 (pyStrip x) = false →
     clean_json_response x = pyStrip x) ∧
    (List.isPrefixOf fence3 (clean_json_response x) = false →
     List.isSuffixOf fence3 (clean_json_response x) = false →
     clean_json_response (clean_json_response x) = clean_json_response x) := by
  constructor
  · exact clean_of_no_fence x
  · intro h1 h2
    have hfix : pyStrip (clean_json_response x) = clean_json_response x :=
      pyStrip_clean x
    have := clean_of_no_fence (clean_json_response x)
      (by rw [hfix]; exact h1) (by rw [hfix]; exact h2)
    rw [this, hfix]

/-- C1 witness: the amended theorem applied at the concrete input "hi". -/
theorem C1_sanitizer_amended_witness :
    clean_json_response ['h', 'i'] = pyStrip ['h', 'i'] :=
  (C1_sanitizer_amended ['h', 'i']).1 (by decide) (by decide)

/-- C1 counterexample: sanitize is NOT idempotent.  On the input
`a` followed by six backticks, one pass yields `a` followed by three
backticks, and a second pass yields a bare `a`. -/
theorem C1_sanitizer_not_idempotent :
    clean_json_response (clean_json_response ['a', '`', '`', '`', '`', '`', '`']) ≠
      clean_json_response ['a', '`', '`', '`', '`', '`', '`'] := by
  decide

/-- C2 counterexample: a parsed credential file with no project/tenant
identifier does NOT produce a credential error — the extraction succeeds and
the inference backend IS invoked, with the hardcoded substitute identity
"gen-lang-client-0155506887" of line 94. -/
theorem C2_no_credential_error :
    (process_images (CredFile.dict [("type", "service_account")]) true
        ⟨true, some "reply"⟩ ⟨none, false, []⟩).1 = some "reply" ∧
    (process_images (CredFile.dict [("type", "service_account")]) true
        ⟨true, some "reply"⟩ ⟨none, false, []⟩).2.genCalls =
      ["gen-lang-client-0155506887"] :=
  ⟨rfl, rfl⟩

/-- C2 amended: when the parsed credential file contains neither `project_id`
nor `quota_project_id`, no error is raised for the missing identifier;
instead the hardcoded fallback project id "gen-lang-client-0155506887" is
derived and, whenever the client is constructed, the inference call is made
with that substitute identity. -/
theorem C2_fallback_project_id (entries : List (String × String)) (b : Backend)
    (s0 : PIState)
    (h1 : lookupKey entries "project_id" = none)
    (h2 : lookupKey entries "quota_project_id" = none)
    (hb : b.clientOk = true) :
    derive_project_id entries = "gen-lang-client-0155506887" ∧
    (process_images (CredFile.dict entries) true b s0).2.genCalls =
      s0.genCalls ++ ["gen-lang-client-0155506887"] := by
  have hid : derive_project_id entries = "gen-lang-client-0155506887" := by
    simp [derive_project_id, pyOrStr, h1, h2]
  refine ⟨hid, ?_⟩
  rcases b with ⟨ok, rep⟩
  simp only at hb
  subst hb
  cases rep <;> simp [process_images, hid]

/-- C2 witness: the amended theorem at a concrete empty credential object. -/
theorem C2_fallback_project_id_witness :
    (process_images (CredFile.dict []) true ⟨true, none⟩
        ⟨none, false, []⟩).2.genCalls =
      [] ++ ["gen-lang-client-0155506887"] :=
  (C2_fallback_project_id [] ⟨true, none⟩ ⟨none, false, []⟩ rfl rfl rfl).2

/-- C7: whenever zero images or more than two images are supplied, the
handler never invokes `process_images` (hence the inference client is never
reached and the global state is untouched), and — when a credential file is
present so the image guard is the one that fires — the outcome is the
invalid-input warning of line 177. -/
theorem C7_image_count_guard (cred : Option CredFile) (images : List ImageFile)
    (w : Bool) (b : Backend) (s0 : PIState)
    (h : images.length = 0 ∨ 2 < images.length) :
    (start_extraction cred images w b s0).invoked = false ∧
    (start_extraction cred images w b s0).state = s0 ∧
    (∀ c, cred = some c →
      (start_extraction cred images w b s0).outcome = UIResult.warnImages) := by
  cases cred with
  | none =>
    refine ⟨rfl, rfl, ?_⟩
    intro c hc
    cases hc
  | some c =>
    have hrun : start_extraction (some c) images w b s0 =
        ⟨UIResult.warnImages, s0, false⟩ := by
      simp only [start_extraction]
      rw [if_pos h]
    rw [hrun]
    exact ⟨rfl, rfl, fun _ _ => rfl⟩

/-- C7 witness: the guard theorem at zero uploaded images. -/
theorem C7_image_count_guard_witness :
    (start_extraction (some (CredFile.dict [])) [] true ⟨true, some "r"⟩
        ⟨none, false, []⟩).invoked = false :=
  (C7_image_count_guard (some (CredFile.dict [])) [] true ⟨true, some "r"⟩
    ⟨none, false, []⟩ (Or.inl rfl)).1

/-- C8 counterexample: when the `tmp_cred.write` call at line 86 raises, the
call returns with the temporary credential file still on disk — the file was
created with `delete=False` before the write, `tmp_cred_path` was never
assigned, so the `'tmp_cred_path' in locals()` guard of line 122 skips the
unlink.  So cleanup does NOT run on every exit path. -/
theorem C8_write_failure_leak :
    (process_images (CredFile.dict [("project_id", "p")]) false
        ⟨true, some "reply"⟩ ⟨none, false, []⟩).2.tmpExists = true :=
  rfl

/-- C8 amended: on every exit path on which the temporary credential file is
successfully written (lines 85-87 complete) — the success path of lines
117-119 as well as every exception path through the handler of lines 121-125
— the file is deleted before the call returns; but when the write at line 86
itself raises, the file created with `delete=False` leaks, because the path
variable is unassigned and the except guard of line 122 skips the unlink. -/
theorem C8_tmp_cred_destroyed (cred : CredFile) (b : Backend) (s0 : PIState) :
    ((process_images cred true b s0).2).tmpExists = false ∧
    ((process_images cred false b s0).2).tmpExists = true := by
  refine ⟨?_, rfl⟩
  rcases b with ⟨ok, rep⟩
  cases cred with
  | invalid => rfl
  | dict entries =>
    cases ok
    · rfl
    · cases rep <;> rfl

/-- C10 counterexample: on the line-86 write-failure exit the env-var
assignment of line 89 never runs, so a call that starts with
GOOGLE_APPLICATION_CREDENTIALS unset returns with it still unset — and with
the leaked temporary file still existing, not deleted.  So it is not the case
that every call sets the variable and deletes the file. -/
theorem C10_write_failure_env_unset :
    (process_images (CredFile.dict [("project_id", "p")]) false
        ⟨true, some "reply"⟩ ⟨none, false, []⟩).2.envCred = none ∧
    (process_images (CredFile.dict [("project_id", "p")]) false
        ⟨true, some "reply"⟩ ⟨none, false, []⟩).2.tmpExists = true :=
  ⟨rfl, rfl⟩

/-- C10 amended: every call to `process_images` on which the temporary file
is successfully written leaves the process-global
GOOGLE_APPLICATION_CREDENTIALS variable pointing at the temporary credential
path on every exit path (line 89 sets it, nothing restores it) while the file
itself has been deleted, so the variable names a dead path; but when the
line-86 write raises, the variable is left exactly as it was and the leaked
file remains. -/
theorem C10_env_var_dangling (cred : CredFile) (b : Backend) (s0 : PIState) :
    ((process_images cred true b s0).2).envCred = some tmpCredPath ∧
    ((process_images cred true b s0).2).tmpExists = false ∧
    ((process_images cred false b s0).2).envCred = s0.envCred ∧
    ((process_images cred false b s0).2).tmpExists = true := by
  refine ⟨?_, ?_, rfl, rfl⟩ <;>
  · rcases b with ⟨ok, rep⟩
    cases cred with
    | invalid => rfl
    | dict entries =>
      cases ok
      · rfl
      · cases rep <;> rfl

/-- C9 counterexample: a successfully parsed reply with NO gender key parses
to a Record whose gender field is the empty string (not one of the selectbox
options), yet the review stage displays it — the lookup of line 224 defaults
the missing key to "Male" rather than the record's empty-string value. -/
theorem C9_absent_gender_displayed :
    review_stage [("name", "ASHA RAO")] =
      ReviewOutcome.displayed (parseRecord [("name", "ASHA RAO")]) "Male" ∧
    (parseRecord [("name", "ASHA RAO")]).gender = "" ∧
    gender_opts.contains "" = false :=
  ⟨rfl, rfl, rfl⟩

/-- C9 amended: when the payload carries an explicit gender value that is not
exactly one of the three options, `list.index` raises, the blanket handler of
lines 311-313 reports it as a parse error, and the record is not displayed;
but when the gender key is absent the lookup defaults to "Male" and the
record IS displayed with "Male" selected. -/
theorem C9_gender_guard_amended :
    (∀ (j : List (String × String)) (g : String),
      lookupKey j "gender" = some g → gender_opts.contains g = false →
      review_stage j = ReviewOutcome.parseError) ∧
    (∀ j : List (String × String),
      lookupKey j "gender" = none →
      review_stage j = ReviewOutcome.displayed (parseRecord j) "Male") := by
  constructor
  · intro j g hg hng
    have hmem : ¬ g ∈ gender_opts := by
      intro hm
      rw [← List.elem_iff] at hm
      rw [List.contains] at hng
      rw [hng] at hm
      cases hm
    simp only [gender_opts, List.mem_cons, List.not_mem_nil, or_false] at hmem
    push_neg at hmem
    obtain ⟨n1, n2, n3⟩ := hmem
    have hlist : pyListIndex gender_opts g = none := by
      simp [pyListIndex, gender_opts, beq_iff_eq, Ne.symm n1, Ne.symm n2,
        Ne.symm n3]
    simp [review_stage, hg, hlist]
  · intro j h
    simp only [review_stage, h]
    rfl

/-- C9 witness: the amended theorem at an explicit non-option gender "F". -/
theorem C9_gender_guard_amended_witness :
    review_stage [("gender", "F")] = ReviewOutcome.parseError :=
  C9_gender_guard_amended.1 [("gender", "F")] "F" rfl rfl

theorem find?_filter_key (j : List (String × String)) (k : String)
    (hk : canonicalFields.contains k = true) :
    List.find? (fun p => p.1 == k)
        (j.filter (fun p => canonicalFields.contains p.1)) =
      List.find? (fun p => p.1 == k) j := by
  induction j with
  | nil => rfl
  | cons p t ih =>
    by_cases hpk : (p.1 == k) = true
    · have hc : canonicalFields.contains p.1 = true := by
        have hEq : p.1 = k := eq_of_beq hpk
        rw [hEq]
        exact hk
      simp only [List.filter_cons]
      rw [if_pos hc]
      simp only [List.find?, hpk]
    · have hpkb : (p.1 == k) = false := by
        cases hx : (p.1 == k)
        · rfl
        · exact absurd hx hpk
      by_cases hc : canonicalFields.contains p.1 = true
      · simp only [List.filter_cons]
        rw [if_pos hc]
        simp only [List.find?, hpkb]
        exact ih
      · simp only [List.filter_cons]
        rw [if_neg hc]
        simp only [List.find?, hpkb]
        exact ih

/-- C4: for every parsed payload, each canonical field that is absent from
the payload defaults to the empty string on the resulting Record (never
absent, never an error — `parseRecord` is total), and keys outside the
canonical set never influence the Record (filtering them away changes
nothing). -/
theorem C4_parse_defaults (j : List (String × String)) :
    (lookupKey j "election_number" = none → (parseRecord j).election_number = "") ∧
    (lookupKey j "name" = none → (parseRecord j).name = "") ∧
    (lookupKey j "relation_name" = none → (parseRecord j).relation_name = "") ∧
    (lookupKey j "gender" = none → (parseRecord j).gender = "") ∧
    (lookupKey j "date_of_birth" = none → (parseRecord j).date_of_birth = "") ∧
    (lookupKey j "address" = none → (parseRecord j).address = "") ∧
    (lookupKey j "city" = none → (parseRecord j).city = "") ∧
    (lookupKey j "state" = none → (parseRecord j).state = "") ∧
    (lookupKey j "pincode" = none → (parseRecord j).pincode = "") ∧
    (lookupKey j "electoral_registration_officer" = none →
      (parseRecord j).electoral_registration_officer = "") ∧
    (lookupKey j "issue_date" = none → (parseRecord j).issue_date = "") ∧
    parseRecord (j.filter (fun p => canonicalFields.contains p.1)) =
      parseRecord j := by
  refine ⟨?_, ?_, ?_, ?_, ?_, ?_, ?_, ?_, ?_, ?_, ?_, ?_⟩
  · intro h; simp [parseRecord, getStr, h]
  · intro h; simp [parseRecord, getStr, h]
  · intro h; simp [parseRecord, getStr, h]
  · intro h; simp [parseRecord, getStr, h]
  · intro h; simp [parseRecord, getStr, h]
  · intro h; simp [parseRecord, getStr, h]
  · intro h; simp [parseRecord, getStr, h]
  · intro h; simp [parseRecord, getStr, h]
  · intro h; simp [parseRecord, getStr, h]
  · intro h; simp [parseRecord, getStr, h]
  · intro h; simp [parseRecord, getStr, h]
  · simp only [parseRecord, getStr, lookupKey]
    rw [find?_filter_key j "election_number" (by decide),
      find?_filter_key j "name" (by decide),
      find?_filter_key j "relation_name" (by decide),
      find?_filter_key j "gender" (by decide),
      find?_filter_key j "date_of_birth" (by decide),
      find?_filter_key j "address" (by decide),
      find?_filter_key j "city" (by decide),
      find?_filter_key j "state" (by decide),
      find?_filter_key j "pincode" (by decide),
      find?_filter_key j "electoral_registration_officer" (by decide),
      find?_filter_key j "issue_date" (by decide)]

/-- C4 witness: the defaulting theorem at a one-key payload. -/
theorem C4_parse_defaults_witness :
    (parseRecord [("name", "x")]).election_number = "" :=
  (C4_parse_defaults [("name", "x")]).1 rfl

/-- C6 counterexample: the code's display label for the field
`electoral_registration_officer` is the literal "ERO", not the
underscores-to-spaces title-cased label the claim demands. -/
theorem C6_label_mismatch :
    lookupKey fieldLabelPairs "electoral_registration_officer" = some "ERO" ∧
    specLabel ("electoral_registration_officer".toList) =
      ("Electoral Registration Officer".toList) ∧
    ("ERO" : String) ≠ "Electoral Registration Officer" := by
  refine ⟨rfl, by decide, by decide⟩

/-- C6 amended: each field line is drawn as "<label>:" (x=50) beside the
value (x=150), with labels taken from a literal table; eight of the eleven
labels equal the field name with underscores replaced by spaces and each word
capitalized, but `name` is labelled "Voter Name", `date_of_birth` is labelled
"Date of Birth" (lower-case "of"), and `electoral_registration_officer` is
labelled "ERO". -/
theorem C6_labels_amended :
    (fieldLabelPairs.all (fun p =>
      (["name", "date_of_birth", "electoral_registration_officer"].contains p.1) ||
      (p.2.toList == specLabel p.1.toList))) = true ∧
    lookupKey fieldLabelPairs "name" = some "Voter Name" ∧
    lookupKey fieldLabelPairs "date_of_birth" = some "Date of Birth" ∧
    lookupKey fieldLabelPairs "electoral_registration_officer" = some "ERO" := by
  refine ⟨by decide, rfl, rfl, rfl⟩

set_option maxRecDepth 20000 in
/-- C3 counterexample: rendering the section-8 Record produces no "N/A" text
anywhere in the document; the election-number value cell on the first page is
drawn as the empty string, leaving that line blank after the label. -/
theorem C3_no_na_placeholder :
    ((create_pdf (recordPayload scenarioRecord)).all
      (fun pg => pg.all (fun d => !(d.text == "N/A")))) = true ∧
    (⟨150, 682, ""⟩ : Draw) ∈ (create_pdf (recordPayload scenarioRecord)).getD 0 [] := by
  constructor
  · decide
  · decide

set_option maxRecDepth 20000 in
/-- C3 amended: empty field values are rendered as empty text beside the
label, not as an "N/A" placeholder; rendering the section-8 Record yields one
page whose first two lines are the title and subtitle, whose third drawn line
is the election-number line "Election Number:" with an empty value cell, and
whose name line is "Voter Name:" with value "ASHA RAO". -/
theorem C3_blank_value_rendering :
    create_pdf (recordPayload scenarioRecord) =
      [[⟨50, 732, "🆔 Voter ID Extraction Report"⟩,
        ⟨50, 707, "Verified Details from EPIC Card"⟩,
        ⟨50, 682, "Election Number:"⟩, ⟨150, 682, ""⟩,
        ⟨50, 660, "Voter Name:"⟩, ⟨150, 660, "ASHA RAO"⟩,
        ⟨50, 638, "Relation Name:"⟩, ⟨150, 638, ""⟩,
        ⟨50, 616, "Gender:"⟩, ⟨150, 616, "Female"⟩,
        ⟨50, 594, "Date of Birth:"⟩, ⟨150, 594, ""⟩,
        ⟨50, 572, "Address:"⟩, ⟨150, 572, ""⟩,
        ⟨50, 550, "City:"⟩, ⟨150, 550, ""⟩,
        ⟨50, 528, "State:"⟩, ⟨150, 528, ""⟩,
        ⟨50, 506, "Pincode:"⟩, ⟨150, 506, ""⟩,
        ⟨50, 484, "ERO:"⟩, ⟨150, 484, ""⟩,
        ⟨50, 462, "Issue Date:"⟩, ⟨150, 462, ""⟩]] := by
  decide

theorem pdfStep_inv (s : PdfState) (lv : String × String)
    (h1 : ∀ d ∈ s.current, (60 : Int) ≤ d.y)
    (h2 : ∀ pg ∈ s.pages, ∀ d ∈ pg, (60 : Int) ≤ d.y)
    (h3 : (60 : Int) ≤ s.y) :
    (∀ d ∈ (pdfStep s lv).current, (60 : Int) ≤ d.y) ∧
    (∀ pg ∈ (pdfStep s lv).pages, ∀ d ∈ pg, (60 : Int) ≤ d.y) ∧
    (60 : Int) ≤ (pdfStep s lv).y := by
  have hcur : ∀ d ∈ s.current ++ drawField lv.1 lv.2 s.y, (60 : Int) ≤ d.y := by
    intro d hd
    rcases List.mem_append.mp hd with hmem | hmem
    · exact h1 d hmem
    · simp only [drawField, List.mem_cons, List.not_mem_nil, or_false] at hmem
      rcases hmem with rfl | rfl
      · exact h3
      · exact h3
  by_cases hy : s.y - 22 < 60
  · simp only [pdfStep, if_pos hy]
    refine ⟨?_, ?_, by norm_num⟩
    · intro d hd
      exact absurd hd (List.not_mem_nil d)
    · intro pg hpg
      rcases List.mem_append.mp hpg with hmem | hmem
      · exact h2 pg hmem
      · simp only [List.mem_cons, List.not_mem_nil, or_false] at hmem
        subst hmem
        exact hcur
  · simp only [pdfStep, if_neg hy]
    exact ⟨hcur, h2, by omega⟩

theorem pdfFold_inv (fs : List (String × String)) :
    ∀ s : PdfState,
      (∀ d ∈ s.current, (60 : Int) ≤ d.y) →
      (∀ pg ∈ s.pages, ∀ d ∈ pg, (60 : Int) ≤ d.y) →
      (60 : Int) ≤ s.y →
      (∀ d ∈ (fs.foldl pdfStep s).current, (60 : Int) ≤ d.y) ∧
      (∀ pg ∈ (fs.foldl pdfStep s).pages, ∀ d ∈ pg, (60 : Int) ≤ d.y) := by
  induction fs with
  | nil =>
    intro s h1 h2 h3
    exact ⟨h1, h2⟩
  | cons f t ih =>
    intro s h1 h2 h3
    obtain ⟨g1, g2, g3⟩ := pdfStep_inv s f h1 h2 h3
    rw [List.foldl_cons]
    exact ih (pdfStep s f) g1 g2 g3

/-- C5: the renderer is a pure function of the record (deterministic); for
every record payload the default margins never trigger a break, so the output
is exactly one page carrying the title, the subtitle and all 11 field lines
in canonical order at descending fixed heights — each line drawn whole on a
single page; and for ANY field list fed through the pagination loop starting
from the canvas start state, every draw on every emitted page sits at or
above the bottom margin: whenever the cursor crosses it, the page is emitted
and the cursor is reset to the top before the next line is drawn. -/
theorem C5_render_pagination :
    (∀ j : List (String × String),
      create_pdf j =
        [[⟨50, 732, "🆔 Voter ID Extraction Report"⟩,
          ⟨50, 707, "Verified Details from EPIC Card"⟩,
          ⟨50, 682, "Election Number:"⟩,
          ⟨150, 682, (getStr j "election_number").take 80⟩,
          ⟨50, 660, "Voter Name:"⟩, ⟨150, 660, (getStr j "name").take 80⟩,
          ⟨50, 638, "Relation Name:"⟩,
          ⟨150, 638, (getStr j "relation_name").take 80⟩,
          ⟨50, 616, "Gender:"⟩, ⟨150, 616, (getStr j "gender").take 80⟩,
          ⟨50, 594, "Date of Birth:"⟩,
          ⟨150, 594, (getStr j "date_of_birth").take 80⟩,
          ⟨50, 572, "Address:"⟩, ⟨150, 572, (getStr j "address").take 80⟩,
          ⟨50, 550, "City:"⟩, ⟨150, 550, (getStr j "city").take 80⟩,
          ⟨50, 528, "State:"⟩, ⟨150, 528, (getStr j "state").take 80⟩,
          ⟨50, 506, "Pincode:"⟩, ⟨150, 506, (getStr j "pincode").take 80⟩,
          ⟨50, 484, "ERO:"⟩,
          ⟨150, 484, (getStr j "electoral_registration_officer").take 80⟩,
          ⟨50, 462, "Issue Date:"⟩,
          ⟨150, 462, (getStr j "issue_date").take 80⟩]]) ∧
    (∀ fs : List (String × String),
      ∀ pg ∈ canvasSave (fs.foldl pdfStep pdfStart),
      ∀ d ∈ pg, (60 : Int) ≤ d.y) := by
  constructor
  · intro j
    rfl
  · intro fs pg hpg d hd
    have hstart1 : ∀ d2 ∈ pdfStart.current, (60 : Int) ≤ d2.y := by
      intro d2 hd2
      simp only [pdfStart, List.mem_cons, List.not_mem_nil, or_false] at hd2
      rcases hd2 with rfl | rfl
      · decide
      · decide
    have hstart2 : ∀ pg2 ∈ pdfStart.pages, ∀ d2 ∈ pg2, (60 : Int) ≤ d2.y := by
      intro pg2 hpg2
      exact absurd hpg2 (List.not_mem_nil pg2)
    have hstart3 : (60 : Int) ≤ pdfStart.y := by decide
    obtain ⟨g1, g2⟩ := pdfFold_inv fs pdfStart hstart1 hstart2 hstart3
    by_cases hcur : (fs.foldl pdfStep pdfStart).current = []
    · rw [canvasSave, if_pos hcur] at hpg
      exact g2 pg hpg d hd
    · rw [canvasSave, if_neg hcur] at hpg
      rcases List.mem_append.mp hpg with hmem | hmem
      · exact g2 pg hmem d hd
      · simp only [List.mem_cons, List.not_mem_nil, or_false] at hmem
        subst hmem
        exact g1 d hd

/-- C5 witness: the margin invariant applied to the empty field list, whose
saved document is the single title page. -/
theorem C5_render_pagination_witness :
    (60 : Int) ≤ (⟨50, 732, "🆔 Voter ID Extraction Report"⟩ : Draw).y :=
  C5_render_pagination.2 []
    [⟨50, 732, "🆔 Voter ID Extraction Report"⟩,
     ⟨50, 707, "Verified Details from EPIC Card"⟩]
    (by decide) ⟨50, 732, "🆔 Voter ID Extraction Report"⟩ (by decide)
